import Mathlib

/-!
Verification of the imgflip API client (`src/lib.rs`, `src/main.rs`).

The development shallowly embeds the crate's data model and the two pieces of
logic with structure worth verifying:

* the generic success/failure response envelope `Response<T>` and its
  conversion to `Result<T>` (serde's `#[serde(untagged)]` deserialization is
  modelled as structural attempt-and-fallback over parsed JSON values);
* the `application/x-www-form-urlencoded` encoding produced by
  `serde_qs::to_string` for caption requests (modelled as an ordered list of
  key-path/value pairs, where a key path such as `boxes[0][text]` is the
  segment list `[name "boxes", idx 0, name "text"]`);
* the builders for caption boxes and requests;
* the response-processing pipelines of `Client::client_memes` and
  `AccountClient::caption_image` (HTTP transport is abstracted as the received
  `HttpResponse`; `reqwest::Response::error_for_status` errors exactly on
  client-error (400-499) and server-error (500-599) statuses).
-/

/-- Parsed JSON values. serde deserializes the response body text into this
shape before the `Response<T>` envelope logic runs; the claims are all about
the envelope/struct decoding, so the text-to-value parse is not re-modelled. -/
inductive Json where
  | null : Json
  | bool (b : Bool) : Json
  | num (n : Int) : Json
  | str (s : String) : Json
  | arr (elems : List Json) : Json
  | obj (fields : List (String × Json)) : Json

/-- First binding of a key in a JSON object's field list. -/
def Json.findField : List (String × Json) → String → Option Json
  | [], _ => none
  | (k, v) :: rest, key => if k = key then some v else Json.findField rest key

/-- Field lookup: `some` on objects that bind the key, `none` otherwise. -/
def Json.getField : Json → String → Option Json
  | .obj fields, key => Json.findField fields key
  | _, _ => none

/-- serde deserialization of `bool`: only a JSON boolean is accepted. -/
def Json.asBool : Json → Option Bool
  | .bool b => some b
  | _ => none

/-- serde deserialization of `String`: only a JSON string is accepted. -/
def Json.asStr : Json → Option String
  | .str s => some s
  | _ => none

/-- serde deserialization of `u32`: a JSON integer in `0 ..= u32::MAX`. -/
def Json.asU32 : Json → Option Nat
  | .num n => if 0 ≤ n ∧ n < 4294967296 then some n.toNat else none
  | _ => none

/-- serde deserialization of a JSON array's element list. -/
def Json.asArr : Json → Option (List Json)
  | .arr elems => some elems
  | _ => none

/-- A `url::Url` value, remembering the string it was parsed from. The url
crate is a third-party dependency; its absolute-URL validation is approximated
as: a nonempty alphabetic scheme, the literal `://`, and a nonempty rest.
Every URL appearing in the claims is of this plain form. -/
structure Url where
  source : String
deriving DecidableEq, Repr

/-- Split a character list at the first occurrence of `://`. -/
def breakSchemeSep : List Char → Option (List Char × List Char)
  | [] => none
  | ':' :: '/' :: '/' :: rest => some ([], rest)
  | c :: rest => (breakSchemeSep rest).map (fun p => (c :: p.1, p.2))

/-- `Url::parse`, approximated (see `Url`). -/
def Url.parse (s : String) : Option Url :=
  match breakSchemeSep s.toList with
  | some (scheme, rest) =>
      if scheme ≠ [] ∧ scheme.all Char.isAlpha ∧ rest ≠ [] then some ⟨s⟩ else none
  | none => none

/-- Blank meme template that can be captioned with text boxes
(`MemeTemplate` in `lib.rs`; `u32` fields carried as `Nat`, range-checked at
decode time). -/
structure MemeTemplate where
  id : String
  name : String
  url : Url
  width : Nat
  height : Nat
  box_count : Nat
deriving DecidableEq, Repr

/-- serde `Deserialize` for `MemeTemplate`: every field must be present and
well-typed; unknown fields are ignored; a malformed URL fails the decode. -/
def decodeMemeTemplate (j : Json) : Option MemeTemplate := do
  let id ← (j.getField "id").bind Json.asStr
  let name ← (j.getField "name").bind Json.asStr
  let url ← ((j.getField "url").bind Json.asStr).bind Url.parse
  let width ← (j.getField "width").bind Json.asU32
  let height ← (j.getField "height").bind Json.asU32
  let box_count ← (j.getField "box_count").bind Json.asU32
  some { id, name, url, width, height, box_count }

/-- Decode each element of a JSON array (serde's `Vec<T>`): any element
failing fails the whole list. -/
def decodeListOf {α : Type} (d : Json → Option α) : List Json → Option (List α)
  | [] => some []
  | j :: rest =>
      match d j with
      | some a => (decodeListOf d rest).map (a :: ·)
      | none => none

/-- The private `MemeTemplatesData { memes: Vec<MemeTemplate> }` wrapper of
`Client::client_memes`. -/
structure MemeTemplatesData where
  memes : List MemeTemplate
deriving DecidableEq, Repr

/-- serde `Deserialize` for `MemeTemplatesData`. -/
def decodeMemeTemplatesData (j : Json) : Option MemeTemplatesData := do
  let elems ← (j.getField "memes").bind Json.asArr
  let memes ← decodeListOf decodeMemeTemplate elems
  some ⟨memes⟩

/-- A captioned meme template (`CaptionImageResponse` in `lib.rs`). -/
structure CaptionImageResponse where
  url : Url
  page_url : Url
deriving DecidableEq, Repr

/-- serde `Deserialize` for `CaptionImageResponse`. -/
def decodeCaptionImageResponse (j : Json) : Option CaptionImageResponse := do
  let url ← ((j.getField "url").bind Json.asStr).bind Url.parse
  let page_url ← ((j.getField "page_url").bind Json.asStr).bind Url.parse
  some { url, page_url }

/-- Errors of `reqwest` that this client can surface: a status error produced
by `Response::error_for_status` and a body-decode error produced by
`Response::json`. -/
inductive ReqwestError where
  | Status (status : Nat) : ReqwestError
  | Decode : ReqwestError
deriving DecidableEq, Repr

/-- The crate's `Error` enum (`lib.rs`): transport/decode errors from
`reqwest`, form-encoding errors from `serde_qs`, and API-reported failures. -/
inductive Error where
  | Reqwest (e : ReqwestError) : Error
  | SerdeQs (e : String) : Error
  | ApiError (msg : String) : Error
deriving DecidableEq, Repr

/-- The crate's `Result<T>` alias. -/
abbrev Result' (T : Type) := Except Error T

/-- The untagged response envelope `Response<T>` (`lib.rs`): both variants
carry the informational `success` flag. -/
inductive Response (T : Type) where
  | SuccessResponse (success : Bool) (data : T) : Response T
  | FailureResponse (success : Bool) (error_message : String) : Response T
deriving DecidableEq, Repr

/-- `Response::convert`: unwrap the payload or classify the server message as
an `ApiError`. The `success` flag is dropped either way. -/
def Response.convert {T : Type} : Response T → Result' T
  | .SuccessResponse _ data => .ok data
  | .FailureResponse _ error_message => .error (.ApiError error_message)

/-- First attempt of serde's untagged decoding: the `SuccessResponse` variant
needs a boolean `success` field and a `data` field decodable as `T`;
unknown fields are ignored. -/
def decodeSuccess {T : Type} (dT : Json → Option T) (j : Json) : Option (Response T) :=
  match (j.getField "success").bind Json.asBool with
  | none => none
  | some success =>
    match j.getField "data" with
    | none => none
    | some dj =>
      match dT dj with
      | none => none
      | some data => some (.SuccessResponse success data)

/-- Second attempt: the `FailureResponse` variant needs a boolean `success`
field and a string `error_message` field. -/
def decodeFailure {T : Type} (j : Json) : Option (Response T) :=
  match (j.getField "success").bind Json.asBool with
  | none => none
  | some success =>
    match (j.getField "error_message").bind Json.asStr with
    | none => none
    | some error_message => some (.FailureResponse success error_message)

/-- serde's `#[serde(untagged)]` deserialization of `Response<T>`: try the
variants in declaration order, first structural match wins, `none` when
neither shape matches. -/
def decodeResponse {T : Type} (dT : Json → Option T) (j : Json) : Option (Response T) :=
  match decodeSuccess dT j with
  | some r => some r
  | none => decodeFailure j

/-- An HTTP response as the client observes it after `send()` (automatic
redirect following happens below this layer): status code and, for the claims
at hand, an already-parsed JSON body. -/
structure HttpResponse where
  status : Nat
  body : Json

/-- `reqwest::Response::error_for_status`: an error exactly when the status is
a client error (400-499) or a server error (500-599). -/
def error_for_status (r : HttpResponse) : Result' HttpResponse :=
  if 400 ≤ r.status ∧ r.status ≤ 599 then .error (.Reqwest (.Status r.status)) else .ok r

/-- `reqwest::Response::json::<Response<T>>()`: envelope decoding of the body;
a body matching neither variant surfaces as a `reqwest` decode error. -/
def jsonDecode {T : Type} (dT : Json → Option T) (body : Json) : Result' (Response T) :=
  match decodeResponse dT body with
  | some r => .ok r
  | none => .error (.Reqwest .Decode)

/-- Response processing of `Client::client_memes`: `error_for_status()?`, then
`.json::<Response<MemeTemplatesData>>()?`, then `.convert().map(|r| r.memes)`.
The `?` early returns are written as explicit matches. -/
def client_memes (resp : HttpResponse) : Result' (List MemeTemplate) :=
  match error_for_status resp with
  | .error e => .error e
  | .ok r =>
    match jsonDecode decodeMemeTemplatesData r.body with
    | .error e => .error e
    | .ok env => (Response.convert env).map MemeTemplatesData.memes

/-- Response processing of `AccountClient::caption_image` (the request-body
side is modelled separately as `AccountClient.captionBody`): after the POST,
`error_for_status()?`, `.json::<Response<CaptionImageResponse>>()?`, then
`.convert()`. -/
def caption_image_response (resp : HttpResponse) : Result' CaptionImageResponse :=
  match error_for_status resp with
  | .error e => .error e
  | .ok r =>
    match jsonDecode decodeCaptionImageResponse r.body with
    | .error e => .error e
    | .ok env => Response.convert env

/-- Decoding depends on a body only through its `success`, `data` and
`error_message` fields. -/
theorem decodeResponse_ext {T : Type} (dT : Json → Option T) (b₁ b₂ : Json)
    (hs : b₁.getField "success" = b₂.getField "success")
    (hd : b₁.getField "data" = b₂.getField "data")
    (he : b₁.getField "error_message" = b₂.getField "error_message") :
    decodeResponse dT b₁ = decodeResponse dT b₂ := by
  unfold decodeResponse decodeSuccess decodeFailure
  rw [hs, hd, he]

/-- When the `success` field is a boolean, the converted decode result is a
function of the `data` and `error_message` fields alone: the flag's value
does not appear on the right-hand side. -/
theorem map_convert_decodeResponse {T : Type} (dT : Json → Option T) (b : Json) (v : Bool)
    (hs : b.getField "success" = some (Json.bool v)) :
    (decodeResponse dT b).map Response.convert
      = match (b.getField "data").bind dT with
        | some t => some (Except.ok t)
        | none =>
          match (b.getField "error_message").bind Json.asStr with
          | some m => some (Except.error (Error.ApiError m))
          | none => none := by
  unfold decodeResponse decodeSuccess decodeFailure
  rw [hs]
  cases hdj : b.getField "data" with
  | none =>
      cases hm : (b.getField "error_message").bind Json.asStr <;>
        simp [Option.bind, Json.asBool, Response.convert]
  | some dj =>
      cases ht : dT dj with
      | none =>
          cases hm : (b.getField "error_message").bind Json.asStr <;>
            simp [ht, hm, Option.bind, Json.asBool, Response.convert]
      | some t =>
          simp [ht, Option.bind, Json.asBool, Response.convert]

/-- C1: for every JSON body matching the success envelope shape (a boolean
`success` field and a `data` field whose structure decodes as the payload
type), decoding `Response<T>` and converting yields the wrapped payload
unchanged. -/
theorem C1_success_envelope_preserves_payload {T : Type} (dT : Json → Option T)
    (body dj : Json) (v : Bool) (t : T)
    (hs : body.getField "success" = some (Json.bool v))
    (hd : body.getField "data" = some dj)
    (ht : dT dj = some t) :
    (decodeResponse dT body).map Response.convert = some (Except.ok t) := by
  rw [map_convert_decodeResponse dT body v hs, hd]
  simp [Option.bind, ht]

/-- The templates-endpoint example: `id="112126428"`, `name="Distracted
Boyfriend"`, `width=1200`, `height=800`, `box_count=3`. -/
def distractedBoyfriend : MemeTemplate :=
  { id := "112126428", name := "Distracted Boyfriend",
    url := ⟨"https://i.imgflip.com/1ur9b0.jpg"⟩,
    width := 1200, height := 800, box_count := 3 }

/-- A second meme template for the two-meme example body. -/
def twoButtons : MemeTemplate :=
  { id := "87743020", name := "Two Buttons",
    url := ⟨"https://i.imgflip.com/1g8my4.jpg"⟩,
    width := 600, height := 908, box_count := 3 }

/-- JSON form of a meme template. -/
def memeTemplateJson (id name url : String) (width height box_count : Int) : Json :=
  Json.obj [("id", .str id), ("name", .str name), ("url", .str url),
            ("width", .num width), ("height", .num height), ("box_count", .num box_count)]

/-- A success envelope from the templates endpoint carrying two memes. -/
def templatesBodyTwoMemes : Json :=
  Json.obj
    [("success", .bool true),
     ("data", .obj [("memes", .arr
        [memeTemplateJson "112126428" "Distracted Boyfriend" "https://i.imgflip.com/1ur9b0.jpg" 1200 800 3,
         memeTemplateJson "87743020" "Two Buttons" "https://i.imgflip.com/1g8my4.jpg" 600 908 3])])]

/-- Witness for C1 at the concrete two-meme success body: the two
`MemeTemplate` values come back with all fields mapped verbatim, and the full
`client_memes` pipeline on an HTTP 200 carrying that body returns exactly
those two templates. -/
theorem C1_success_envelope_preserves_payload_witness :
    (decodeResponse decodeMemeTemplatesData templatesBodyTwoMemes).map Response.convert
        = some (Except.ok (⟨[distractedBoyfriend, twoButtons]⟩ : MemeTemplatesData))
    ∧ client_memes { status := 200, body := templatesBodyTwoMemes }
        = Except.ok [distractedBoyfriend, twoButtons] :=
  ⟨C1_success_envelope_preserves_payload decodeMemeTemplatesData templatesBodyTwoMemes
    (Json.obj [("memes", .arr
      [memeTemplateJson "112126428" "Distracted Boyfriend" "https://i.imgflip.com/1ur9b0.jpg" 1200 800 3,
       memeTemplateJson "87743020" "Two Buttons" "https://i.imgflip.com/1g8my4.jpg" 600 908 3])])
    true ⟨[distractedBoyfriend, twoButtons]⟩ rfl rfl (by decide), rfl⟩

/-- C2: every failure-envelope body `\x7bsuccess:false, error_message:"X"\x7d`
decodes and converts to an API error carrying the message `X` verbatim, and
`ApiError` is a distinct error kind from the transport (status), decode and
form-encoding kinds. -/
theorem C2_failure_envelope_message_verbatim {T : Type} (dT : Json → Option T)
    (X : String) (st : Nat) (e : String) :
    (decodeResponse dT
        (Json.obj [("success", .bool false), ("error_message", .str X)])).map Response.convert
      = some (Except.error (Error.ApiError X))
    ∧ Error.ApiError X ≠ Error.Reqwest (ReqwestError.Status st)
    ∧ Error.ApiError X ≠ Error.Reqwest ReqwestError.Decode
    ∧ Error.ApiError X ≠ Error.SerdeQs e := by
  refine ⟨rfl, fun h => ?_, fun h => ?_, fun h => ?_⟩ <;> cases h

/-- C3: a body offering neither a `data` field that decodes as the payload
type nor a string `error_message` field matches neither envelope variant, so
`.json()` fails with a `reqwest` decode error: no default payload, no
`ApiError`. -/
theorem C3_neither_shape_is_decode_error {T : Type} (dT : Json → Option T) (body : Json)
    (hdata : (body.getField "data").bind dT = none)
    (hmsg : ∀ s : String, body.getField "error_message" ≠ some (Json.str s)) :
    jsonDecode dT body = Except.error (Error.Reqwest ReqwestError.Decode) := by
  have hsucc : decodeSuccess dT body = none := by
    unfold decodeSuccess
    cases hb : (body.getField "success").bind Json.asBool with
    | none => rfl
    | some v =>
        cases hdj : body.getField "data" with
        | none => rfl
        | some dj =>
            have : dT dj = none := by rwa [hdj, Option.some_bind] at hdata
            simp [this]
  have hfail : decodeFailure (T := T) body = none := by
    unfold decodeFailure
    cases hb : (body.getField "success").bind Json.asBool with
    | none => rfl
    | some v =>
        have hem : (body.getField "error_message").bind Json.asStr = none := by
          cases hj : body.getField "error_message" with
          | none => rfl
          | some j =>
              cases j <;> first
                | rfl
                | exact absurd hj (hmsg _)
        simp [hem]
  unfold jsonDecode decodeResponse
  rw [hsucc, hfail]

/-- Witness for C3: the body `\x7b"success": true\x7d` (no `data`, no
`error_message`) decodes to a `reqwest` decode error. -/
theorem C3_neither_shape_is_decode_error_witness :
    jsonDecode decodeMemeTemplatesData (Json.obj [("success", .bool true)])
      = Except.error (Error.Reqwest ReqwestError.Decode) :=
  C3_neither_shape_is_decode_error decodeMemeTemplatesData
    (Json.obj [("success", .bool true)]) rfl
    (fun s h => by simp [Json.getField, Json.findField] at h)

/-- Looking up any key other than `success` ignores the value bound at an
occurrence of `success`. -/
theorem findField_ignores_success (pre post : List (String × Json)) (key : String)
    (x y : Json) (hkey : key ≠ "success") :
    Json.findField (pre ++ ("success", x) :: post) key
      = Json.findField (pre ++ ("success", y) :: post) key := by
  induction pre with
  | nil => simp [Json.findField, Ne.symm hkey]
  | cons p pre ih =>
      obtain ⟨k, v⟩ := p
      simp only [List.cons_append, Json.findField]
      split
      · rfl
      · exact ih

/-- Looking up `success` returns the earlier binding when there is one, and
the marked occurrence's value otherwise. -/
theorem findField_success (pre post : List (String × Json)) (x : Json) :
    Json.findField (pre ++ ("success", x) :: post) "success"
      = match Json.findField pre "success" with
        | some v => some v
        | none => some x := by
  induction pre with
  | nil => simp [Json.findField]
  | cons p pre ih =>
      obtain ⟨k, v⟩ := p
      simp only [List.cons_append, Json.findField]
      split
      · rfl
      · exact ih

/-- C4: the value of the `success` boolean is never the discriminant. Two
envelope bodies identical except for the value of a `success` flag decode and
convert identically: the shape (presence of `data` versus `error_message`),
tried success-first, governs, even when the flag is inconsistent with the
shape. -/
theorem C4_success_flag_never_discriminates {T : Type} (dT : Json → Option T)
    (pre post : List (String × Json)) (v₁ v₂ : Bool) :
    (decodeResponse dT (Json.obj (pre ++ ("success", Json.bool v₁) :: post))).map Response.convert
      = (decodeResponse dT (Json.obj (pre ++ ("success", Json.bool v₂) :: post))).map Response.convert := by
  have hd : (Json.obj (pre ++ ("success", Json.bool v₁) :: post)).getField "data"
      = (Json.obj (pre ++ ("success", Json.bool v₂) :: post)).getField "data" := by
    simpa [Json.getField] using
      findField_ignores_success pre post "data" (Json.bool v₁) (Json.bool v₂) (by decide)
  have he : (Json.obj (pre ++ ("success", Json.bool v₁) :: post)).getField "error_message"
      = (Json.obj (pre ++ ("success", Json.bool v₂) :: post)).getField "error_message" := by
    simpa [Json.getField] using
      findField_ignores_success pre post "error_message" (Json.bool v₁) (Json.bool v₂) (by decide)
  cases hsv : Json.findField pre "success" with
  | some sv =>
      have hs : (Json.obj (pre ++ ("success", Json.bool v₁) :: post)).getField "success"
          = (Json.obj (pre ++ ("success", Json.bool v₂) :: post)).getField "success" := by
        simp [Json.getField, findField_success, hsv]
      rw [decodeResponse_ext dT _ _ hs hd he]
  | none =>
      have hs₁ : (Json.obj (pre ++ ("success", Json.bool v₁) :: post)).getField "success"
          = some (Json.bool v₁) := by
        simp [Json.getField, findField_success, hsv]
      have hs₂ : (Json.obj (pre ++ ("success", Json.bool v₂) :: post)).getField "success"
          = some (Json.bool v₂) := by
        simp [Json.getField, findField_success, hsv]
      rw [map_convert_decodeResponse dT _ v₁ hs₁, map_convert_decodeResponse dT _ v₂ hs₂,
        hd, he]

/-- Font for `CaptionBoxesRequest` (`CaptionFont` in `lib.rs`). -/
inductive CaptionFont where
  | Impact : CaptionFont
  | Arial : CaptionFont
deriving DecidableEq, Repr

/-- serde `Serialize` with `rename_all = "lowercase"`. -/
def CaptionFont.serialize : CaptionFont → String
  | .Impact => "impact"
  | .Arial => "arial"

/-- Text and other fields for an image caption (`CaptionBox` in `lib.rs`). -/
structure CaptionBox where
  text : String
  x : Option Nat
  y : Option Nat
  width : Option Nat
  height : Option Nat
  color : Option String
  outline_color : Option String
deriving DecidableEq, Repr

/-- Builder for `CaptionBox` (`CaptionBoxBuilder` in `lib.rs`). -/
structure CaptionBoxBuilder where
  text : String
  x : Option Nat
  y : Option Nat
  width : Option Nat
  height : Option Nat
  color : Option String
  outline_color : Option String
deriving DecidableEq, Repr

/-- `CaptionBoxBuilder::new`: only the text is set, all optional fields start
absent. -/
def CaptionBoxBuilder.new (text : String) : CaptionBoxBuilder :=
  { text, x := none, y := none, width := none, height := none,
    color := none, outline_color := none }

/-- `CaptionBoxBuilder::dimension`: sets `x`, `y`, `width` and `height`, all
four together. -/
def CaptionBoxBuilder.dimension (b : CaptionBoxBuilder) (x y width height : Nat) :
    CaptionBoxBuilder :=
  { b with x := some x, y := some y, width := some width, height := some height }

/-- `CaptionBoxBuilder::color` (the method; named apart from the field). -/
def CaptionBoxBuilder.setColor (b : CaptionBoxBuilder) (color : String) : CaptionBoxBuilder :=
  { b with color := some color }

/-- `CaptionBoxBuilder::outline_color` (the method; named apart from the
field). -/
def CaptionBoxBuilder.setOutlineColor (b : CaptionBoxBuilder) (outline_color : String) :
    CaptionBoxBuilder :=
  { b with outline_color := some outline_color }

/-- `CaptionBoxBuilder::build`: moves every field into the `CaptionBox`. -/
def CaptionBoxBuilder.build (b : CaptionBoxBuilder) : CaptionBox :=
  { text := b.text, x := b.x, y := b.y, width := b.width, height := b.height,
    color := b.color, outline_color := b.outline_color }

/-- Request data to caption a meme template (`CaptionBoxesRequest` in
`lib.rs`). The box sequence is ordered. -/
structure CaptionBoxesRequest where
  template_id : String
  font : Option CaptionFont
  max_font_size : Option Nat
  boxes : List CaptionBox
deriving DecidableEq, Repr

/-- Builder for `CaptionBoxesRequest` (`CaptionBoxesRequestBuilder` in
`lib.rs`). -/
structure CaptionBoxesRequestBuilder where
  template_id : String
  font : Option CaptionFont
  max_font_size : Option Nat
  boxes : List CaptionBox
deriving DecidableEq, Repr

/-- `CaptionBoxesRequestBuilder::new`. -/
def CaptionBoxesRequestBuilder.new (template_id : String) : CaptionBoxesRequestBuilder :=
  { template_id, font := none, max_font_size := none, boxes := [] }

/-- `CaptionBoxesRequestBuilder::font` (the method; named apart from the
field). -/
def CaptionBoxesRequestBuilder.setFont (b : CaptionBoxesRequestBuilder) (font : CaptionFont) :
    CaptionBoxesRequestBuilder :=
  { b with font := some font }

/-- `CaptionBoxesRequestBuilder::max_font_size` (the method). -/
def CaptionBoxesRequestBuilder.setMaxFontSize (b : CaptionBoxesRequestBuilder)
    (max_font_size : Nat) : CaptionBoxesRequestBuilder :=
  { b with max_font_size := some max_font_size }

/-- `CaptionBoxesRequestBuilder::caption_box`: pushes one box at the end. -/
def CaptionBoxesRequestBuilder.caption_box (b : CaptionBoxesRequestBuilder)
    (box : CaptionBox) : CaptionBoxesRequestBuilder :=
  { b with boxes := b.boxes ++ [box] }

/-- `CaptionBoxesRequestBuilder::build`. -/
def CaptionBoxesRequestBuilder.build (b : CaptionBoxesRequestBuilder) : CaptionBoxesRequest :=
  { template_id := b.template_id, font := b.font,
    max_font_size := b.max_font_size, boxes := b.boxes }

/-- One segment of a `serde_qs` key. `serde_qs::to_string` renders a key path
`[name "boxes", idx 0, name "text"]` as `boxes[0][text]`: the head segment
bare, every later segment bracketed. -/
inductive Seg where
  | name (s : String) : Seg
  | idx (n : Nat) : Seg
deriving DecidableEq, Repr

/-- The form-encoded body as `serde_qs` builds it: key-path/value pairs,
in serialization order (the rendered body joins `key=value` pairs with `&`,
percent-escaping values; the claims are about keys, values and order, which
the pair list carries in full). -/
abbrev QsPairs := List (List Seg × String)

/-- `serde_qs` encoding of an `Option` field: `None` contributes no pair at
all, `Some v` contributes exactly one. -/
def optPair (key : List Seg) : Option String → QsPairs
  | none => []
  | some v => [(key, v)]

/-- `serde_qs` encoding of a `CaptionBox` under a key prefix, fields in
declaration order, unset optional fields omitted. -/
def encodeCaptionBox (pre : List Seg) (b : CaptionBox) : QsPairs :=
  [(pre ++ [Seg.name "text"], b.text)]
    ++ optPair (pre ++ [Seg.name "x"]) (b.x.map toString)
    ++ optPair (pre ++ [Seg.name "y"]) (b.y.map toString)
    ++ optPair (pre ++ [Seg.name "width"]) (b.width.map toString)
    ++ optPair (pre ++ [Seg.name "height"]) (b.height.map toString)
    ++ optPair (pre ++ [Seg.name "color"]) b.color
    ++ optPair (pre ++ [Seg.name "outline_color"]) b.outline_color

/-- `serde_qs` encoding of a `Vec<CaptionBox>` under the key `boxes`: the
sequence serializer numbers elements with a counter starting at `n`
(`to_string` starts it at 0), in sequence order. -/
def encodeBoxesFrom (n : Nat) : List CaptionBox → QsPairs
  | [] => []
  | b :: bs => encodeCaptionBox [Seg.name "boxes", Seg.idx n] b ++ encodeBoxesFrom (n + 1) bs

/-- `serde_qs` encoding of a `CaptionBoxesRequest`: fields in declaration
order, `None` fields omitted. -/
def CaptionBoxesRequest.encodeQs (r : CaptionBoxesRequest) : QsPairs :=
  [([Seg.name "template_id"], r.template_id)]
    ++ optPair [Seg.name "font"] (r.font.map CaptionFont.serialize)
    ++ optPair [Seg.name "max_font_size"] (r.max_font_size.map toString)
    ++ encodeBoxesFrom 0 r.boxes

/-- The `RequestAuthWrapper` of `AccountClient::caption_image`: the wrapped
request is `#[serde(flatten)]`ed, so its fields come first at top level,
followed by `username` and `password` at the same level. -/
structure RequestAuthWrapper where
  request : CaptionBoxesRequest
  username : String
  password : String
deriving DecidableEq, Repr

/-- `serde_qs::to_string(&RequestAuthWrapper { .. })`. -/
def RequestAuthWrapper.encodeQs (w : RequestAuthWrapper) : QsPairs :=
  w.request.encodeQs
    ++ [([Seg.name "username"], w.username), ([Seg.name "password"], w.password)]

/-- Client for `api.imgflip.com` that can caption meme templates
(`AccountClient` in `lib.rs`; the pooled `reqwest::Client` handle carries no
state the claims touch). -/
structure AccountClient where
  username : String
  password : String
deriving DecidableEq, Repr

/-- `AccountClient::new`. -/
def AccountClient.new (username password : String) : AccountClient :=
  { username, password }

/-- The single form-encoded body `AccountClient::caption_image` POSTs: the
caption request's fields merged with the client's credentials. -/
def AccountClient.captionBody (c : AccountClient) (image_caption : CaptionBoxesRequest) :
    QsPairs :=
  RequestAuthWrapper.encodeQs
    { request := image_caption, username := c.username, password := c.password }

/-- The pairs of an encoded body whose keys live under `boxes[i]`. -/
def boxGroup (enc : QsPairs) (i : Nat) : QsPairs :=
  enc.filter (fun kv => decide (kv.1.take 2 = [Seg.name "boxes", Seg.idx i]))

/-- Membership in an encoded `Option` field. -/
theorem mem_optPair_iff {kv : List Seg × String} {key : List Seg} {o : Option String} :
    kv ∈ optPair key o ↔ ∃ v, o = some v ∧ kv = (key, v) := by
  cases o <;> simp [optPair]

/-- Every key an encoded `CaptionBox` contributes is the prefix plus one
final name segment. -/
theorem mem_encodeCaptionBox_key (pre : List Seg) (b : CaptionBox) (kv : List Seg × String)
    (h : kv ∈ encodeCaptionBox pre b) : ∃ f : String, kv.1 = pre ++ [Seg.name f] := by
  simp only [encodeCaptionBox, List.mem_append, List.mem_singleton, mem_optPair_iff] at h
  rcases h with ((((((h | ⟨v, _, h⟩) | ⟨v, _, h⟩) | ⟨v, _, h⟩) | ⟨v, _, h⟩) | ⟨v, _, h⟩) | ⟨v, _, h⟩) <;>
    subst h <;> exact ⟨_, rfl⟩

theorem take_two_cons_cons (a b : Seg) (l : List Seg) : (a :: b :: l).take 2 = [a, b] := rfl

/-- A box encoded under index `n` contributes to group `i` exactly when
`n = i`, and then contributes its whole encoding. -/
theorem boxGroup_encodeCaptionBox (n i : Nat) (b : CaptionBox) :
    boxGroup (encodeCaptionBox [Seg.name "boxes", Seg.idx n] b) i
      = if n = i then encodeCaptionBox [Seg.name "boxes", Seg.idx n] b else [] := by
  by_cases hni : n = i
  · subst hni
    rw [if_pos rfl]
    refine List.filter_eq_self.mpr fun kv hkv => ?_
    obtain ⟨f, hf⟩ := mem_encodeCaptionBox_key _ _ _ hkv
    simp [hf, take_two_cons_cons]
  · rw [if_neg hni]
    refine List.filter_eq_nil_iff.mpr fun kv hkv => ?_
    obtain ⟨f, hf⟩ := mem_encodeCaptionBox_key _ _ _ hkv
    simp [hf, take_two_cons_cons, hni]

/-- Groups with an index below the sequence serializer's counter are empty. -/
theorem boxGroup_encodeBoxesFrom_lt (bs : List CaptionBox) (n j : Nat) (h : j < n) :
    boxGroup (encodeBoxesFrom n bs) j = [] := by
  induction bs generalizing n with
  | nil => simp [encodeBoxesFrom, boxGroup]
  | cons b bs ih =>
      rw [encodeBoxesFrom, boxGroup, List.filter_append]
      rw [show (encodeCaptionBox [Seg.name "boxes", Seg.idx n] b).filter
            (fun kv => decide (kv.1.take 2 = [Seg.name "boxes", Seg.idx j])) =
          boxGroup (encodeCaptionBox [Seg.name "boxes", Seg.idx n] b) j from rfl,
        boxGroup_encodeCaptionBox, if_neg (by omega)]
      rw [List.nil_append]
      exact ih (n + 1) (by omega)

/-- The group at index `n + i` of the boxes encoded from counter `n` is the
encoding of the i-th box of the sequence, when it exists, and empty past the
end. -/
theorem boxGroup_encodeBoxesFrom (bs : List CaptionBox) (n i : Nat) :
    boxGroup (encodeBoxesFrom n bs) (n + i)
      = match bs[i]? with
        | some b => encodeCaptionBox [Seg.name "boxes", Seg.idx (n + i)] b
        | none => [] := by
  induction bs generalizing n i with
  | nil => simp [encodeBoxesFrom, boxGroup]
  | cons b bs ih =>
      rw [encodeBoxesFrom, boxGroup, List.filter_append]
      rw [show (encodeCaptionBox [Seg.name "boxes", Seg.idx n] b).filter
            (fun kv => decide (kv.1.take 2 = [Seg.name "boxes", Seg.idx (n + i)])) =
          boxGroup (encodeCaptionBox [Seg.name "boxes", Seg.idx n] b) (n + i) from rfl,
        boxGroup_encodeCaptionBox]
      cases i with
      | zero =>
          simp only [Nat.add_zero, eq_self_iff_true, if_true]
          have h2 : boxGroup (encodeBoxesFrom (n + 1) bs) n = [] :=
            boxGroup_encodeBoxesFrom_lt bs (n + 1) n (by omega)
          rw [boxGroup] at h2
          rw [h2, List.append_nil]
          simp
      | succ i' =>
          rw [if_neg (by omega)]
          have h2 := ih (n + 1) i'
          rw [boxGroup] at h2
          rw [show n + (i' + 1) = (n + 1) + i' by omega, h2, List.nil_append]
          simp

/-- The `boxes[i]` group of a whole encoded request: exactly the encoding of
the i-th box of the sequence (empty past the end); the scalar fields
contribute nothing to any group. -/
theorem boxGroup_encodeQs (r : CaptionBoxesRequest) (i : Nat) :
    boxGroup r.encodeQs i
      = match r.boxes[i]? with
        | some b => encodeCaptionBox [Seg.name "boxes", Seg.idx i] b
        | none => [] := by
  have h0 := boxGroup_encodeBoxesFrom r.boxes 0 i
  rw [Nat.zero_add] at h0
  unfold CaptionBoxesRequest.encodeQs
  rw [boxGroup, List.filter_append, List.filter_append, List.filter_append]
  rw [show (encodeBoxesFrom 0 r.boxes).filter
        (fun kv => decide (kv.1.take 2 = [Seg.name "boxes", Seg.idx i])) =
      boxGroup (encodeBoxesFrom 0 r.boxes) i from rfl, h0]
  cases hf : r.font <;> cases hm : r.max_font_size <;>
    simp [optPair, List.filter]

/-- C5: form-encoding a request with N boxes yields exactly N indexed
`boxes[i][..]` groups, the group at index i being the encoding of the box
inserted at position i (and nothing beyond index N-1); encoding a permuted
box sequence assigns index j to the box the permutation places at position j. -/
theorem C5_box_encoding_preserves_order (r : CaptionBoxesRequest) (i : Nat) :
    ((h : i < r.boxes.length) →
        boxGroup r.encodeQs i = encodeCaptionBox [Seg.name "boxes", Seg.idx i] r.boxes[i])
    ∧ (r.boxes.length ≤ i → boxGroup r.encodeQs i = [])
    ∧ ∀ (p : List (Fin r.boxes.length)) (j : Fin p.length),
        boxGroup (CaptionBoxesRequest.encodeQs
            { template_id := r.template_id, font := r.font,
              max_font_size := r.max_font_size,
              boxes := p.map (fun k => r.boxes[k]) }) j.1
          = encodeCaptionBox [Seg.name "boxes", Seg.idx j.1] r.boxes[p.get j] := by
  refine ⟨fun h => ?_, fun h => ?_, fun p j => ?_⟩
  · rw [boxGroup_encodeQs, List.getElem?_eq_getElem h]
  · rw [boxGroup_encodeQs, List.getElem?_eq_none h]
  · have hlen : j.1 < (p.map (fun k => r.boxes[k])).length := by
      rw [List.length_map]
      exact j.isLt
    rw [boxGroup_encodeQs]
    simp only [List.getElem?_eq_getElem hlen, List.getElem_map]
    rfl

/-- A box with text and full dimensions, built through the builder. -/
def exampleBoxTop : CaptionBox :=
  ((CaptionBoxBuilder.new "top text").dimension 10 20 300 80).build

/-- A box with text and a color, built through the builder. -/
def exampleBoxBottom : CaptionBox :=
  ((CaptionBoxBuilder.new "bottom text").setColor "#ff0000").build

/-- The spec's example request: template `61580`, Arial, max font size 42,
two boxes in insertion order. -/
def exampleRequest : CaptionBoxesRequest :=
  (((((CaptionBoxesRequestBuilder.new "61580").setFont CaptionFont.Arial).setMaxFontSize
    42).caption_box exampleBoxTop).caption_box exampleBoxBottom).build

/-- Witness for C5 at the two-box example request: group 1 is the second
inserted box, group 2 is empty, and after swapping the two boxes group 0 is
the formerly-second box. -/
theorem C5_box_encoding_preserves_order_witness :
    boxGroup exampleRequest.encodeQs 1
        = encodeCaptionBox [Seg.name "boxes", Seg.idx 1] exampleBoxBottom
    ∧ boxGroup exampleRequest.encodeQs 2 = []
    ∧ boxGroup (CaptionBoxesRequest.encodeQs
          { template_id := "61580", font := some CaptionFont.Arial,
            max_font_size := some 42,
            boxes := [exampleBoxBottom, exampleBoxTop] }) 0
        = encodeCaptionBox [Seg.name "boxes", Seg.idx 0] exampleBoxBottom := by
  refine ⟨(C5_box_encoding_preserves_order exampleRequest 1).1 (by decide), ?_, ?_⟩
  · exact (C5_box_encoding_preserves_order exampleRequest 2).2.1 (by decide)
  · exact (C5_box_encoding_preserves_order exampleRequest 0).2.2
      [⟨1, by decide⟩, ⟨0, by decide⟩] ⟨0, by decide⟩

/-- Exactly which pairs an encoded `CaptionBox` contains: the mandatory text
pair, plus one pair per optional field that is set. -/
theorem mem_encodeCaptionBox_iff (pre : List Seg) (b : CaptionBox) (kv : List Seg × String) :
    kv ∈ encodeCaptionBox pre b ↔
      kv = (pre ++ [Seg.name "text"], b.text)
      ∨ (∃ u, b.x = some u ∧ kv = (pre ++ [Seg.name "x"], toString u))
      ∨ (∃ u, b.y = some u ∧ kv = (pre ++ [Seg.name "y"], toString u))
      ∨ (∃ u, b.width = some u ∧ kv = (pre ++ [Seg.name "width"], toString u))
      ∨ (∃ u, b.height = some u ∧ kv = (pre ++ [Seg.name "height"], toString u))
      ∨ (∃ c, b.color = some c ∧ kv = (pre ++ [Seg.name "color"], c))
      ∨ (∃ c, b.outline_color = some c ∧ kv = (pre ++ [Seg.name "outline_color"], c)) := by
  simp only [encodeCaptionBox, List.mem_append, List.mem_singleton, mem_optPair_iff,
    Option.map_eq_some']
  constructor
  · rintro ((((((h | ⟨v, ⟨u, hu, rfl⟩, rfl⟩) | ⟨v, ⟨u, hu, rfl⟩, rfl⟩) | ⟨v, ⟨u, hu, rfl⟩, rfl⟩) |
        ⟨v, ⟨u, hu, rfl⟩, rfl⟩) | ⟨v, hv, rfl⟩) | ⟨v, hv, rfl⟩)
    · exact Or.inl h
    · exact Or.inr (Or.inl ⟨u, hu, rfl⟩)
    · exact Or.inr (Or.inr (Or.inl ⟨u, hu, rfl⟩))
    · exact Or.inr (Or.inr (Or.inr (Or.inl ⟨u, hu, rfl⟩)))
    · exact Or.inr (Or.inr (Or.inr (Or.inr (Or.inl ⟨u, hu, rfl⟩))))
    · exact Or.inr (Or.inr (Or.inr (Or.inr (Or.inr (Or.inl ⟨v, hv, rfl⟩)))))
    · exact Or.inr (Or.inr (Or.inr (Or.inr (Or.inr (Or.inr ⟨v, hv, rfl⟩)))))
  · rintro (h | ⟨u, hu, rfl⟩ | ⟨u, hu, rfl⟩ | ⟨u, hu, rfl⟩ | ⟨u, hu, rfl⟩ | ⟨c, hc, rfl⟩ |
        ⟨c, hc, rfl⟩)
    · exact Or.inl (Or.inl (Or.inl (Or.inl (Or.inl (Or.inl h)))))
    · exact Or.inl (Or.inl (Or.inl (Or.inl (Or.inl (Or.inr ⟨toString u, ⟨u, hu, rfl⟩, rfl⟩)))))
    · exact Or.inl (Or.inl (Or.inl (Or.inl (Or.inr ⟨toString u, ⟨u, hu, rfl⟩, rfl⟩))))
    · exact Or.inl (Or.inl (Or.inl (Or.inr ⟨toString u, ⟨u, hu, rfl⟩, rfl⟩)))
    · exact Or.inl (Or.inl (Or.inr ⟨toString u, ⟨u, hu, rfl⟩, rfl⟩))
    · exact Or.inl (Or.inr ⟨c, hc, rfl⟩)
    · exact Or.inr ⟨c, hc, rfl⟩

/-- Every pair of the encoded box sequence comes from the box at some
position j, encoded under index counter-plus-j. -/
theorem mem_encodeBoxesFrom_iff (bs : List CaptionBox) (n : Nat) (kv : List Seg × String) :
    kv ∈ encodeBoxesFrom n bs ↔
      ∃ j : Nat, ∃ h : j < bs.length,
        kv ∈ encodeCaptionBox [Seg.name "boxes", Seg.idx (n + j)] bs[j] := by
  induction bs generalizing n with
  | nil => simp [encodeBoxesFrom]
  | cons b bs ih =>
      rw [encodeBoxesFrom, List.mem_append, ih]
      constructor
      · rintro (h | ⟨j, hj, h⟩)
        · exact ⟨0, by simp, by simpa using h⟩
        · exact ⟨j + 1, by simp; omega, by
            simpa [show n + 1 + j = n + (j + 1) by omega] using h⟩
      · rintro ⟨j, hj, h⟩
        cases j with
        | zero => exact Or.inl (by simpa using h)
        | succ j' => exact Or.inr ⟨j', by simp at hj; omega, by
            simpa [show n + 1 + j' = n + (j' + 1) by omega] using h⟩

/-- Exhaustive shape of the pairs in the POSTed caption body: the scalar
request fields, the per-box pairs, and the two credential fields. -/
theorem mem_captionBody_cases (c : AccountClient) (r : CaptionBoxesRequest)
    (kv : List Seg × String) (h : kv ∈ c.captionBody r) :
    kv = ([Seg.name "template_id"], r.template_id)
    ∨ (∃ fo, r.font = some fo ∧ kv = ([Seg.name "font"], fo.serialize))
    ∨ (∃ m, r.max_font_size = some m ∧ kv = ([Seg.name "max_font_size"], toString m))
    ∨ (∃ j : Nat, ∃ hj : j < r.boxes.length,
        kv ∈ encodeCaptionBox [Seg.name "boxes", Seg.idx j] r.boxes[j])
    ∨ kv = ([Seg.name "username"], c.username)
    ∨ kv = ([Seg.name "password"], c.password) := by
  unfold AccountClient.captionBody RequestAuthWrapper.encodeQs CaptionBoxesRequest.encodeQs at h
  simp only [List.mem_append, List.mem_singleton, List.mem_cons, List.not_mem_nil,
    mem_optPair_iff, Option.map_eq_some', mem_encodeBoxesFrom_iff, Nat.zero_add,
    or_false] at h
  rcases h with (((h | ⟨v, ⟨fo, hfo, rfl⟩, rfl⟩) | ⟨v, ⟨m, hm, rfl⟩, rfl⟩) | ⟨j, hj, hb⟩) | (h | h)
  · exact Or.inl h
  · exact Or.inr (Or.inl ⟨fo, hfo, rfl⟩)
  · exact Or.inr (Or.inr (Or.inl ⟨m, hm, rfl⟩))
  · exact Or.inr (Or.inr (Or.inr (Or.inl ⟨j, hj, hb⟩)))
  · exact Or.inr (Or.inr (Or.inr (Or.inr (Or.inl h))))
  · exact Or.inr (Or.inr (Or.inr (Or.inr (Or.inr h))))

/-- C6: an optional `CaptionBox` field left unset contributes no key at all
to the form-encoded request body: the encoded body holds no pair whose key is
`boxes[i][field]`, with any value whatsoever (so in particular no
empty-string and no null placeholder). -/
theorem C6_unset_optional_fields_absent (c : AccountClient) (r : CaptionBoxesRequest)
    (i : Nat) (h : i < r.boxes.length) :
    (r.boxes[i].x = none →
        (c.captionBody r).filter
          (fun kv => decide (kv.1 = [Seg.name "boxes", Seg.idx i, Seg.name "x"])) = [])
    ∧ (r.boxes[i].y = none →
        (c.captionBody r).filter
          (fun kv => decide (kv.1 = [Seg.name "boxes", Seg.idx i, Seg.name "y"])) = [])
    ∧ (r.boxes[i].width = none →
        (c.captionBody r).filter
          (fun kv => decide (kv.1 = [Seg.name "boxes", Seg.idx i, Seg.name "width"])) = [])
    ∧ (r.boxes[i].height = none →
        (c.captionBody r).filter
          (fun kv => decide (kv.1 = [Seg.name "boxes", Seg.idx i, Seg.name "height"])) = [])
    ∧ (r.boxes[i].color = none →
        (c.captionBody r).filter
          (fun kv => decide (kv.1 = [Seg.name "boxes", Seg.idx i, Seg.name "color"])) = [])
    ∧ (r.boxes[i].outline_color = none →
        (c.captionBody r).filter
          (fun kv => decide (kv.1 = [Seg.name "boxes", Seg.idx i, Seg.name "outline_color"]))
          = []) := by
  have key_shape : ∀ (f : String) (kv : List Seg × String), kv ∈ c.captionBody r →
      kv.1 = [Seg.name "boxes", Seg.idx i, Seg.name f] →
      kv ∈ encodeCaptionBox [Seg.name "boxes", Seg.idx i] r.boxes[i] := by
    intro f kv hkv hkey
    rcases mem_captionBody_cases c r kv hkv with h1 | ⟨fo, _, h1⟩ | ⟨m, _, h1⟩ |
        ⟨j, hj, hb⟩ | h1 | h1
    · rw [h1] at hkey; simp at hkey
    · rw [h1] at hkey; simp at hkey
    · rw [h1] at hkey; simp at hkey
    · obtain ⟨g, hg⟩ := mem_encodeCaptionBox_key _ _ _ hb
      rw [hg] at hkey
      simp only [List.cons_append, List.nil_append, List.cons.injEq, Seg.idx.injEq,
        Seg.name.injEq, and_true, true_and] at hkey
      obtain ⟨hji, -⟩ := hkey
      subst hji
      exact hb
    · rw [h1] at hkey; simp at hkey
    · rw [h1] at hkey; simp at hkey
  refine ⟨fun hf => ?_, fun hf => ?_, fun hf => ?_, fun hf => ?_, fun hf => ?_, fun hf => ?_⟩ <;>
    · refine List.filter_eq_nil_iff.mpr fun kv hkv => ?_
      simp only [decide_eq_true_eq]
      intro hkey
      have hb := key_shape _ kv hkv hkey
      rw [mem_encodeCaptionBox_iff] at hb
      rcases hb with h1 | ⟨u, hu, h1⟩ | ⟨u, hu, h1⟩ | ⟨u, hu, h1⟩ | ⟨u, hu, h1⟩ |
          ⟨u, hu, h1⟩ | ⟨u, hu, h1⟩ <;> subst h1 <;> simp_all

/-- A box built with only text set: every optional field absent. -/
def exampleBareBox : CaptionBox := (CaptionBoxBuilder.new "hello").build

/-- A one-box request around `exampleBareBox`. -/
def exampleBareRequest : CaptionBoxesRequest :=
  ((CaptionBoxesRequestBuilder.new "61580").caption_box exampleBareBox).build

/-- Witness for C6: for the bare box at index 0 of a concrete request, none of
the six optional keys occurs in the POSTed body. -/
theorem C6_unset_optional_fields_absent_witness :
    ((AccountClient.new "user" "hunter2").captionBody exampleBareRequest).filter
        (fun kv => decide (kv.1 = [Seg.name "boxes", Seg.idx 0, Seg.name "x"])) = []
    ∧ ((AccountClient.new "user" "hunter2").captionBody exampleBareRequest).filter
        (fun kv => decide (kv.1 = [Seg.name "boxes", Seg.idx 0, Seg.name "y"])) = []
    ∧ ((AccountClient.new "user" "hunter2").captionBody exampleBareRequest).filter
        (fun kv => decide (kv.1 = [Seg.name "boxes", Seg.idx 0, Seg.name "width"])) = []
    ∧ ((AccountClient.new "user" "hunter2").captionBody exampleBareRequest).filter
        (fun kv => decide (kv.1 = [Seg.name "boxes", Seg.idx 0, Seg.name "height"])) = []
    ∧ ((AccountClient.new "user" "hunter2").captionBody exampleBareRequest).filter
        (fun kv => decide (kv.1 = [Seg.name "boxes", Seg.idx 0, Seg.name "color"])) = []
    ∧ ((AccountClient.new "user" "hunter2").captionBody exampleBareRequest).filter
        (fun kv => decide (kv.1 = [Seg.name "boxes", Seg.idx 0, Seg.name "outline_color"]))
        = [] := by
  have h := C6_unset_optional_fields_absent (AccountClient.new "user" "hunter2")
    exampleBareRequest 0 (by decide)
  exact ⟨h.1 rfl, h.2.1 rfl, h.2.2.1 rfl, h.2.2.2.1 rfl, h.2.2.2.2.1 rfl, h.2.2.2.2.2 rfl⟩

/-- C7: the single form-encoded body POSTed by `caption_image` carries
`username` and `password` as top-level keys (bare one-segment keys, exactly
like the request's own `template_id`), and neither credential name ever
occurs nested under any other key. -/
theorem C7_credentials_flattened_top_level (c : AccountClient) (r : CaptionBoxesRequest) :
    ([Seg.name "username"], c.username) ∈ c.captionBody r
    ∧ ([Seg.name "password"], c.password) ∈ c.captionBody r
    ∧ ([Seg.name "template_id"], r.template_id) ∈ c.captionBody r
    ∧ (∀ kv ∈ c.captionBody r, Seg.name "username" ∈ kv.1 → kv.1 = [Seg.name "username"])
    ∧ (∀ kv ∈ c.captionBody r, Seg.name "password" ∈ kv.1 → kv.1 = [Seg.name "password"]) := by
  have aux : ∀ (s : String), s ≠ "boxes" → s ≠ "text" → s ≠ "x" → s ≠ "y" → s ≠ "width" →
      s ≠ "height" → s ≠ "color" → s ≠ "outline_color" → s ≠ "template_id" → s ≠ "font" →
      s ≠ "max_font_size" →
      ∀ kv ∈ c.captionBody r, Seg.name s ∈ kv.1 → kv.1 = [Seg.name s] := by
    intro s h1 h2 h3 h4 h5 h6 h7 h8 h9 h10 h11 kv hkv hmem
    rcases mem_captionBody_cases c r kv hkv with hA | ⟨fo, _, hA⟩ | ⟨m, _, hA⟩ |
        ⟨j, hj, hb⟩ | hA | hA
    · subst hA; simp at hmem; exact absurd hmem h9
    · subst hA; simp at hmem; exact absurd hmem h10
    · subst hA; simp at hmem; exact absurd hmem h11
    · rw [mem_encodeCaptionBox_iff] at hb
      rcases hb with h1' | ⟨u, hu, h1'⟩ | ⟨u, hu, h1'⟩ | ⟨u, hu, h1'⟩ | ⟨u, hu, h1'⟩ |
          ⟨u, hu, h1'⟩ | ⟨u, hu, h1'⟩ <;> subst h1' <;> simp_all
    · subst hA; simp at hmem; subst hmem; rfl
    · subst hA; simp at hmem; subst hmem; rfl
  refine ⟨?_, ?_, ?_, fun kv hkv hmem => ?_, fun kv hkv hmem => ?_⟩
  · simp [AccountClient.captionBody, RequestAuthWrapper.encodeQs]
  · simp [AccountClient.captionBody, RequestAuthWrapper.encodeQs]
  · simp [AccountClient.captionBody, RequestAuthWrapper.encodeQs,
      CaptionBoxesRequest.encodeQs]
  · exact aux "username" (by decide) (by decide) (by decide) (by decide) (by decide)
      (by decide) (by decide) (by decide) (by decide) (by decide) (by decide) kv hkv hmem
  · exact aux "password" (by decide) (by decide) (by decide) (by decide) (by decide)
      (by decide) (by decide) (by decide) (by decide) (by decide) (by decide) kv hkv hmem

/-- Witness for C7 at a concrete client and request (the parts of C7 with
hypotheses, instantiated): the credential pairs of the example body, and the
top-level key fact applied to the pair actually found in the body. -/
theorem C7_credentials_flattened_top_level_witness :
    ([Seg.name "username"], "user") ∈ (AccountClient.new "user" "hunter2").captionBody
        exampleBareRequest
    ∧ (([Seg.name "username"], "user") : List Seg × String).1 = [Seg.name "username"]
    ∧ (([Seg.name "password"], "hunter2") : List Seg × String).1 = [Seg.name "password"] := by
  have h := C7_credentials_flattened_top_level (AccountClient.new "user" "hunter2")
    exampleBareRequest
  exact ⟨h.1, h.2.2.2.1 _ h.1 (by decide), h.2.2.2.2 _ h.2.1 (by decide)⟩

/-- Counterexample to C8 as stated: an HTTP 300 response is non-2xx, yet
`error_for_status` (which only rejects 4xx/5xx) passes it through, the body
is decoded, and the operation returns an API error, not a transport error. -/
theorem C8_counterexample_status300_reaches_decoding :
    client_memes
        { status := 300,
          body := Json.obj [("success", .bool false), ("error_message", .str "kaput")] }
      = Except.error (Error.ApiError "kaput") := rfl

/-- C8 (amended): for every HTTP response with a client-error or server-error
status (4xx or 5xx), the template-listing and caption operations return the
transport status error; the body is never decoded (it is arbitrary here). -/
theorem C8_amended_4xx5xx_transport_error_before_decode (resp : HttpResponse)
    (h4 : 400 ≤ resp.status) (h5 : resp.status ≤ 599) :
    client_memes resp = Except.error (Error.Reqwest (ReqwestError.Status resp.status))
    ∧ caption_image_response resp
        = Except.error (Error.Reqwest (ReqwestError.Status resp.status)) := by
  unfold client_memes caption_image_response error_for_status
  rw [if_pos ⟨h4, h5⟩]
  exact ⟨rfl, rfl⟩

/-- Witness for the amended C8: HTTP 500 with an arbitrary (null) body yields
the transport error from both pipelines. -/
theorem C8_amended_4xx5xx_transport_error_before_decode_witness :
    client_memes { status := 500, body := Json.null }
        = Except.error (Error.Reqwest (ReqwestError.Status 500))
    ∧ caption_image_response { status := 500, body := Json.null }
        = Except.error (Error.Reqwest (ReqwestError.Status 500)) :=
  C8_amended_4xx5xx_transport_error_before_decode
    { status := 500, body := Json.null } (by decide) (by decide)

namespace Main

/-- `TopBottomCaptionRequest` of `main.rs`: the fixed caption shape with
exactly two named text fields, sharing template id, font and max font size
with the box-list shape (here `max_font_size` is required, credentials are
carried inline). -/
structure TopBottomCaptionRequest where
  template_id : String
  username : String
  password : String
  text_top : String
  text_bottom : String
  font : Option CaptionFont
  max_font_size : Nat
deriving DecidableEq, Repr

/-- `CaptionBoxesRequest` of `main.rs`: the variable box-list shape with
inline credentials (the box and font types are structurally identical to the
library's, so those embeddings are reused). -/
structure CaptionBoxesRequest where
  template_id : String
  username : String
  password : String
  font : Option CaptionFont
  max_font_size : Option Nat
  boxes : List CaptionBox
deriving DecidableEq, Repr

/-- `ImageCaptionRequest` of `main.rs`: the two caption shapes as distinct
variants of one untagged request enum accepted by
`AccountClient::caption_image`. -/
inductive ImageCaptionRequest where
  | TopBottomCaptionRequest (r : TopBottomCaptionRequest) : ImageCaptionRequest
  | CaptionBoxesRequest (r : CaptionBoxesRequest) : ImageCaptionRequest
deriving DecidableEq, Repr

/-- `serde_qs` encoding of the fixed shape, fields in declaration order. -/
def TopBottomCaptionRequest.encodeQs (r : TopBottomCaptionRequest) : QsPairs :=
  [([Seg.name "template_id"], r.template_id),
   ([Seg.name "username"], r.username),
   ([Seg.name "password"], r.password),
   ([Seg.name "text_top"], r.text_top),
   ([Seg.name "text_bottom"], r.text_bottom)]
    ++ optPair [Seg.name "font"] (r.font.map CaptionFont.serialize)
    ++ [([Seg.name "max_font_size"], toString r.max_font_size)]

/-- `serde_qs` encoding of `main.rs`'s box-list shape. -/
def CaptionBoxesRequest.encodeQs (r : CaptionBoxesRequest) : QsPairs :=
  [([Seg.name "template_id"], r.template_id),
   ([Seg.name "username"], r.username),
   ([Seg.name "password"], r.password)]
    ++ optPair [Seg.name "font"] (r.font.map CaptionFont.serialize)
    ++ optPair [Seg.name "max_font_size"] (r.max_font_size.map toString)
    ++ encodeBoxesFrom 0 r.boxes

/-- `#[serde(untagged)]` `Serialize`: the active variant's content is
serialized directly, so `caption_image` accepts and encodes both shapes. -/
def ImageCaptionRequest.encodeQs : ImageCaptionRequest → QsPairs
  | .TopBottomCaptionRequest r => r.encodeQs
  | .CaptionBoxesRequest r => r.encodeQs

end Main

/-- C9: the caption operation accepts both request shapes as variants of one
request type. The fixed shape's encoded key set is exactly template id,
credentials, the two named text fields `text_top`/`text_bottom`, the shared
optional font and the shared max font size, and carries no box keys; the
box-list variant shares `template_id` and carries no top/bottom text keys. -/
theorem C9_two_request_shapes (r : Main.TopBottomCaptionRequest)
    (b : Main.CaptionBoxesRequest) :
    (Main.ImageCaptionRequest.TopBottomCaptionRequest r).encodeQs.map Prod.fst
        = [[Seg.name "template_id"], [Seg.name "username"], [Seg.name "password"],
           [Seg.name "text_top"], [Seg.name "text_bottom"]]
          ++ (match r.font with | none => [] | some _ => [[Seg.name "font"]])
          ++ [[Seg.name "max_font_size"]]
    ∧ ([Seg.name "text_top"], r.text_top)
        ∈ (Main.ImageCaptionRequest.TopBottomCaptionRequest r).encodeQs
    ∧ ([Seg.name "text_bottom"], r.text_bottom)
        ∈ (Main.ImageCaptionRequest.TopBottomCaptionRequest r).encodeQs
    ∧ ([Seg.name "template_id"], r.template_id)
        ∈ (Main.ImageCaptionRequest.TopBottomCaptionRequest r).encodeQs
    ∧ ([Seg.name "max_font_size"], toString r.max_font_size)
        ∈ (Main.ImageCaptionRequest.TopBottomCaptionRequest r).encodeQs
    ∧ ([Seg.name "template_id"], b.template_id)
        ∈ (Main.ImageCaptionRequest.CaptionBoxesRequest b).encodeQs
    ∧ (∀ kv ∈ (Main.ImageCaptionRequest.CaptionBoxesRequest b).encodeQs,
        kv.1 ≠ [Seg.name "text_top"] ∧ kv.1 ≠ [Seg.name "text_bottom"]) := by
  refine ⟨?_, ?_, ?_, ?_, ?_, ?_, fun kv hkv => ?_⟩
  · cases hf : r.font <;>
      simp [Main.ImageCaptionRequest.encodeQs, Main.TopBottomCaptionRequest.encodeQs,
        optPair, hf]
  · simp [Main.ImageCaptionRequest.encodeQs, Main.TopBottomCaptionRequest.encodeQs]
  · simp [Main.ImageCaptionRequest.encodeQs, Main.TopBottomCaptionRequest.encodeQs]
  · simp [Main.ImageCaptionRequest.encodeQs, Main.TopBottomCaptionRequest.encodeQs]
  · simp [Main.ImageCaptionRequest.encodeQs, Main.TopBottomCaptionRequest.encodeQs]
  · simp [Main.ImageCaptionRequest.encodeQs, Main.CaptionBoxesRequest.encodeQs]
  · simp only [Main.ImageCaptionRequest.encodeQs, Main.CaptionBoxesRequest.encodeQs,
      List.mem_append, List.mem_cons, List.not_mem_nil, mem_optPair_iff,
      Option.map_eq_some', mem_encodeBoxesFrom_iff, Nat.zero_add, or_false] at hkv
    rcases hkv with (((h | h | h) | ⟨v, ⟨fo, hfo, rfl⟩, rfl⟩) | ⟨v, ⟨m, hm, rfl⟩, rfl⟩) |
        ⟨j, hj, hb⟩
    · subst h; exact ⟨by simp, by simp⟩
    · subst h; exact ⟨by simp, by simp⟩
    · subst h; exact ⟨by simp, by simp⟩
    · exact ⟨by simp, by simp⟩
    · exact ⟨by simp, by simp⟩
    · obtain ⟨g, hg⟩ := mem_encodeCaptionBox_key _ _ _ hb
      exact ⟨by rw [hg]; simp, by rw [hg]; simp⟩

/-- A concrete fixed-shape request for the C9 witness. -/
def exampleTopBottom : Main.TopBottomCaptionRequest :=
  { template_id := "61580", username := "user", password := "hunter2",
    text_top := "top text", text_bottom := "bottom text",
    font := some CaptionFont.Arial, max_font_size := 50 }

/-- A concrete box-list request for the C9 witness. -/
def exampleMainBoxes : Main.CaptionBoxesRequest :=
  { template_id := "61580", username := "user", password := "hunter2",
    font := some CaptionFont.Arial, max_font_size := some 42,
    boxes := [exampleBareBox] }

/-- Witness for C9 at concrete requests of both shapes; the no-top/bottom-key
fact is applied to the `template_id` pair found in the box-variant body. -/
theorem C9_two_request_shapes_witness :
    (Main.ImageCaptionRequest.TopBottomCaptionRequest exampleTopBottom).encodeQs.map Prod.fst
        = [[Seg.name "template_id"], [Seg.name "username"], [Seg.name "password"],
           [Seg.name "text_top"], [Seg.name "text_bottom"], [Seg.name "font"],
           [Seg.name "max_font_size"]]
    ∧ ([Seg.name "text_top"], "top text")
        ∈ (Main.ImageCaptionRequest.TopBottomCaptionRequest exampleTopBottom).encodeQs
    ∧ ([Seg.name "template_id"], "61580")
        ∈ (Main.ImageCaptionRequest.CaptionBoxesRequest exampleMainBoxes).encodeQs
    ∧ (([Seg.name "template_id"], "61580") : List Seg × String).1 ≠ [Seg.name "text_top"] := by
  have h := C9_two_request_shapes exampleTopBottom exampleMainBoxes
  exact ⟨h.1, h.2.1, h.2.2.2.2.2.1,
    (h.2.2.2.2.2.2 ([Seg.name "template_id"], "61580") h.2.2.2.2.2.1).1⟩

/-- One chained call on a `CaptionBoxBuilder` after `new` (the builder's
whole public surface besides `build`). -/
inductive BuilderCall where
  | dimension (x y width height : Nat) : BuilderCall
  | color (c : String) : BuilderCall
  | outline_color (c : String) : BuilderCall
deriving DecidableEq, Repr

/-- Apply one chained call to the builder state. -/
def CaptionBoxBuilder.applyCall (b : CaptionBoxBuilder) : BuilderCall → CaptionBoxBuilder
  | .dimension x y width height => b.dimension x y width height
  | .color c => b.setColor c
  | .outline_color c => b.setOutlineColor c

/-- Any builder chain: `CaptionBoxBuilder::new(text)`, then the listed calls
in order, then `build()`. -/
def buildWithCalls (text : String) (calls : List BuilderCall) : CaptionBox :=
  (calls.foldl CaptionBoxBuilder.applyCall (CaptionBoxBuilder.new text)).build

/-- The four placement fields of a builder state are all set or all unset. -/
def CaptionBoxBuilder.dimInvariant (b : CaptionBoxBuilder) : Prop :=
  b.x.isSome = b.y.isSome ∧ b.x.isSome = b.width.isSome ∧ b.x.isSome = b.height.isSome

/-- Every single call preserves the all-or-nothing placement invariant
(`dimension` sets all four together; the color setters touch none of them). -/
theorem applyCall_preserves_dimInvariant (b : CaptionBoxBuilder) (call : BuilderCall)
    (h : b.dimInvariant) : (b.applyCall call).dimInvariant := by
  cases call with
  | dimension x y width height =>
      simp [CaptionBoxBuilder.applyCall, CaptionBoxBuilder.dimension,
        CaptionBoxBuilder.dimInvariant]
  | color c =>
      simpa [CaptionBoxBuilder.applyCall, CaptionBoxBuilder.setColor,
        CaptionBoxBuilder.dimInvariant] using h
  | outline_color c =>
      simpa [CaptionBoxBuilder.applyCall, CaptionBoxBuilder.setOutlineColor,
        CaptionBoxBuilder.dimInvariant] using h

/-- Folding any call list preserves the invariant. -/
theorem foldl_applyCall_dimInvariant (calls : List BuilderCall) (b : CaptionBoxBuilder)
    (h : b.dimInvariant) : (calls.foldl CaptionBoxBuilder.applyCall b).dimInvariant := by
  induction calls generalizing b with
  | nil => exact h
  | cons call calls ih =>
      exact ih _ (applyCall_preserves_dimInvariant b call h)

/-- C10: every `CaptionBox` produced by a builder chain (`new`, any sequence
of `dimension`/`color`/`outline_color` calls, `build`) has `x`, `y`, `width`
and `height` all present or all absent: `new` starts all four absent and
`dimension`, the only call touching them, sets all four together. -/
theorem C10_builder_dimension_all_or_nothing (text : String) (calls : List BuilderCall) :
    ((buildWithCalls text calls).x.isSome = (buildWithCalls text calls).y.isSome
      ∧ (buildWithCalls text calls).x.isSome = (buildWithCalls text calls).width.isSome
      ∧ (buildWithCalls text calls).x.isSome = (buildWithCalls text calls).height.isSome)
    ∧ (CaptionBoxBuilder.new text).build.x = none
    ∧ (CaptionBoxBuilder.new text).build.y = none
    ∧ (CaptionBoxBuilder.new text).build.width = none
    ∧ (CaptionBoxBuilder.new text).build.height = none := by
  have hinv := foldl_applyCall_dimInvariant calls (CaptionBoxBuilder.new text)
    (by simp [CaptionBoxBuilder.new, CaptionBoxBuilder.dimInvariant])
  exact ⟨hinv, rfl, rfl, rfl, rfl⟩

/-- Witness for C2 at a concrete failure body and concrete other error kinds:
the message comes through verbatim and the kinds are distinct. -/
theorem C2_failure_envelope_message_verbatim_witness :
    (decodeResponse decodeCaptionImageResponse
        (Json.obj [("success", .bool false),
                   ("error_message", .str "No template found")])).map Response.convert
      = some (Except.error (Error.ApiError "No template found"))
    ∧ Error.ApiError "No template found" ≠ Error.Reqwest (ReqwestError.Status 500)
    ∧ Error.ApiError "No template found" ≠ Error.Reqwest ReqwestError.Decode
    ∧ Error.ApiError "No template found" ≠ Error.SerdeQs "qs" :=
  C2_failure_envelope_message_verbatim decodeCaptionImageResponse "No template found" 500 "qs"

/-- Witness for C4 at a concrete pair of bodies that differ only in the
`success` flag, the flag inconsistent with the (failure) shape in one of
them: both decode-and-convert identically. -/
theorem C4_success_flag_never_discriminates_witness :
    (decodeResponse decodeMemeTemplatesData
        (Json.obj [("success", Json.bool true),
                   ("error_message", Json.str "oops")])).map Response.convert
      = (decodeResponse decodeMemeTemplatesData
          (Json.obj [("success", Json.bool false),
                     ("error_message", Json.str "oops")])).map Response.convert :=
  C4_success_flag_never_discriminates decodeMemeTemplatesData []
    [("error_message", Json.str "oops")] true false
